import Mathlib

/-! Bearer authentification helpers of RESTinio.

A shallow embedding of `dev/restinio/helpers/http_field_parsers/bearer_auth.hpp`
(`params_t`, `extraction_error_t`, `impl::perform_extraction_attempt` and the two
overloads of `try_extract_params`) together with statements about the extraction
pipeline.

`expected_t< T, E >` is embedded as `Except E T`, `optional_t< T >` as `Option T`,
`string_view_t` and `std::string` as `String`.

The header includes three collaborators whose sources are not part of the
development: the generic parser `authorization_value_t::try_parse`, and the two
lookups `http_header_fields_t::opt_value_of` (by name, by `http_field_t`).  Every
general statement below quantifies over them (structure `collaborators_t`), so it
holds for whatever these functions compute.  A concrete instance, modelled from the
specification, is used to evaluate the pipeline on the header values of the test
suite.

Two further embeddings of the same functions make explicit what the first one leaves
implicit: `perform_extraction_attempt_checked` has the dereferences of the source as
operations that can fail, and the `_in_state` functions thread the state of the
program through the calls of the collaborators.
-/

namespace restinio

/-- A non-owning view of a character sequence (`restinio::string_view_t`). -/
abbrev string_view_t := String

/-- Modelled from the spec: the declaration of `http_field_t` (`http_headers.hpp`) is
missing.  The spec calls it "a canonical enumerated handle for a well-known header
name"; only the enumerators that the sources mention are listed, plus the handle
that stands for a field with a custom name.
-/
inductive http_field_t where
  | authorization
  | proxy_authorization
  | field_unspecified
  deriving DecidableEq, Repr

/-- Modelled from the spec: the declaration of a stored header field is missing.  One
field of the header store: its name, its raw value and its identifier.
-/
structure http_header_field_t where
  name : String
  value : String
  field_id : http_field_t
  deriving DecidableEq, Repr

/-- Modelled from the spec: the declaration of `http_request_header_t` is missing.  The
shape follows its use in `dev/test/bearer_auth/main.cpp`: a method and a request
target given at construction, and the fields added with `set_field`.
-/
structure http_request_header_t where
  method : String
  request_target : String
  fields : List http_header_field_t
  deriving DecidableEq, Repr

/-- Modelled from the spec: the declaration of `request_t` is missing.  The shape
follows the constructor call of `dev/test/bearer_auth/main.cpp`: a request id, the
header, the body, the connection id and the remote endpoint (address, port).
-/
structure request_t where
  request_id : Nat
  header : http_request_header_t
  body : String
  connection_id : Nat
  remote_endpoint : String × Nat
  deriving DecidableEq, Repr

namespace http_field_parsers

/-- Modelled from the spec: the declaration of `authorization_value_t::param_t` is
missing.  One `name=value` pair of an auth-param list.
-/
structure param_t where
  name : String
  value : String
  deriving DecidableEq, Repr

/-- The token68 form of the parameter (`authorization_value_t::token68_t`); the
source reads its member `value`. -/
structure token68_t where
  value : String
  deriving DecidableEq, Repr

/-- Modelled from the spec: the declaration of `authorization_value_t::auth_param_t` is
missing.  It is the variant `Token68(string) | ParamList(ordered list of name/value)`.
-/
inductive auth_param_t where
  | token68 (t : token68_t)
  | param_container (ps : List param_t)
  deriving DecidableEq, Repr

/-- The parsed value of an authorization field (`authorization_value_t`); the source
reads its members `auth_scheme` and `auth_param`. -/
structure authorization_value_t where
  auth_scheme : String
  auth_param : auth_param_t
  deriving DecidableEq, Repr

/-- The call `get_if< authorization_value_t::token68_t >( &auth_param )`: a pointer
to the token68 alternative when the variant holds it, a null pointer otherwise. -/
def get_if_token68 : auth_param_t → Option token68_t
  | .token68 t => some t
  | .param_container _ => none

namespace bearer_auth

/-- Parameters for bearer authentification (`params_t`). -/
structure params_t where
  token : String
  deriving DecidableEq, Repr

/-- Error codes for failures of extraction of bearer authentification parameters
(`extraction_error_t`), in the order of the source. -/
inductive extraction_error_t where
  | no_auth_http_field
  | illegal_http_field_value
  | not_bearer_auth_scheme
  | invalid_bearer_auth_param
  | empty_token
  deriving DecidableEq, Repr

namespace impl

/-- The function `impl::perform_extraction_attempt` of `bearer_auth.hpp`.  The generic
parser `authorization_value_t::try_parse` is the parameter `try_parse`; the type `ε`
of its failures is left open.
-/
def perform_extraction_attempt {ε : Type}
    (try_parse : string_view_t → Except ε authorization_value_t)
    (opt_field_value : Option string_view_t) : Except extraction_error_t params_t :=
  match opt_field_value with
  | none => .error .no_auth_http_field
  | some field_value =>
    match try_parse field_value with
    | .error _ => .error .illegal_http_field_value
    | .ok parsed_value =>
      if "Bearer" ≠ parsed_value.auth_scheme then
        .error .not_bearer_auth_scheme
      else
        match get_if_token68 parsed_value.auth_param with
        | none => .error .invalid_bearer_auth_param
        | some b64token => .ok { token := b64token.value }

end impl

/-- The collaborators that `bearer_auth.hpp` calls and does not define: the generic
parser of an authorization value and the two lookups of the header store.
-/
structure collaborators_t (ε : Type) where
  try_parse : string_view_t → Except ε authorization_value_t
  opt_value_of_name : http_request_header_t → string_view_t → Option string_view_t
  opt_value_of_id : http_request_header_t → http_field_t → Option string_view_t

/-- The overload `try_extract_params( const request_t &, string_view_t )`. -/
def try_extract_params {ε : Type} (env : collaborators_t ε)
    (req : request_t) (auth_field_name : string_view_t) :
    Except extraction_error_t params_t :=
  impl.perform_extraction_attempt env.try_parse
    (env.opt_value_of_name req.header auth_field_name)

/-- The overload `try_extract_params( const request_t &, http_field_t )`. -/
def try_extract_params_by_id {ε : Type} (env : collaborators_t ε)
    (req : request_t) (auth_field_id : http_field_t) :
    Except extraction_error_t params_t :=
  impl.perform_extraction_attempt env.try_parse
    (env.opt_value_of_id req.header auth_field_id)

end bearer_auth

/-! ## A concrete instance of the collaborators -/

/-- Modelled from the spec: the failure type of the generic parser is missing.  The spec
only says that the parser has "finer-grained parser diagnostics"; three reasons are
told apart here.
-/
inductive parse_failure_t where
  | no_auth_scheme
  | no_space_after_scheme
  | illegal_auth_param
  deriving DecidableEq, Repr

/-- Modelled from the spec: the character class of an HTTP token ("`scheme` is
syntactically a valid HTTP token").
-/
def is_token_char (c : Char) : Bool :=
  c.isAlphanum || "!#$%&\x27*+-.^_\x60|~".data.contains c

/-- Modelled from the spec: the character class of token68 without the padding
character ("alphanumerics plus `-._~+/=`").
-/
def is_token68_char (c : Char) : Bool :=
  c.isAlphanum || "-._~+/".data.contains c

/-- Modelled from the spec: a token68 blob, characters of the token68 class followed by
a run of `=`.  The empty blob is accepted, as the spec speaks of
"`Bearer ` with empty token68".
-/
def is_token68 (cs : List Char) : Bool :=
  (cs.dropWhile is_token68_char).all (fun c => c == '=')

/-- Modelled from the spec: the pieces of a character sequence between the
occurrences of `sep`. -/
def split_on (sep : Char) : List Char → List (List Char)
  | [] => [[]]
  | c :: cs =>
    if c = sep then [] :: split_on sep cs
    else
      match split_on sep cs with
      | [] => [[c]]
      | piece :: pieces => (c :: piece) :: pieces

/-- Modelled from the spec: a character sequence without its leading and trailing
spaces. -/
def strip_spaces (cs : List Char) : List Char :=
  ((cs.dropWhile (fun c => c == ' ')).reverse.dropWhile (fun c => c == ' ')).reverse

/-- Modelled from the spec: one `name=value` pair; the name and the value are non-empty
HTTP tokens.
-/
def parse_param (cs : List Char) : Option param_t :=
  let item := strip_spaces cs
  let name := item.takeWhile is_token_char
  match item.dropWhile is_token_char with
  | '=' :: value =>
    if name ≠ [] ∧ value ≠ [] ∧ value.all is_token_char then
      some { name := String.mk name, value := String.mk value }
    else none
  | _ => none

/-- Modelled from the spec: the generic parser `authorization_value_t::try_parse`, whose
source is missing.  The grammar is the one the spec gives, `scheme 1*SP param`, where
`scheme` is a non-empty HTTP token and `param` is either a single token68 blob or a
comma-separated list of `name=value` pairs.
-/
def authorization_value_t.try_parse (field_value : string_view_t) :
    Except parse_failure_t authorization_value_t :=
  let scheme := field_value.data.takeWhile is_token_char
  let after_scheme := field_value.data.dropWhile is_token_char
  if scheme = [] then .error .no_auth_scheme
  else
    match after_scheme with
    | ' ' :: tail =>
      let param := tail.dropWhile (fun c => c == ' ')
      if is_token68 param then
        .ok { auth_scheme := String.mk scheme,
              auth_param := .token68 { value := String.mk param } }
      else
        match (split_on ',' param).mapM parse_param with
        | some ps =>
          .ok { auth_scheme := String.mk scheme, auth_param := .param_container ps }
        | none => .error .illegal_auth_param
    | _ => .error .no_space_after_scheme

end http_field_parsers

/-- Modelled from the spec: comparison of two field names without regard to letter
case (the test suite looks `X-My-Authorization` up as `x-my-authorization`). -/
def is_equal_caseless (a b : String) : Bool :=
  a.data.map Char.toLower == b.data.map Char.toLower

/-- Modelled from the spec: the lookup `opt_value_of( string_view_t )` of the header
store, whose source is missing: "given a field name ..., returns an optional raw
string value".  The first field with that name is taken.
-/
def http_request_header_t.opt_value_of (h : http_request_header_t)
    (name : string_view_t) : Option string_view_t :=
  (h.fields.find? (fun f => is_equal_caseless f.name name)).map (fun f => f.value)

/-- Modelled from the spec: the lookup `opt_value_of( http_field_t )` of the header
store, whose source is missing: "given a field ... identifier, returns an optional
raw string value".  The first field with that identifier is taken; the handle of
custom names identifies no field.
-/
def http_request_header_t.opt_value_of_id (h : http_request_header_t)
    (field_id : http_field_t) : Option string_view_t :=
  if field_id = .field_unspecified then none
  else (h.fields.find? (fun f => f.field_id = field_id)).map (fun f => f.value)

namespace http_field_parsers
namespace bearer_auth

/-- The collaborators as modelled above. -/
def modelled_collaborators : collaborators_t parse_failure_t where
  try_parse := authorization_value_t.try_parse
  opt_value_of_name := http_request_header_t.opt_value_of
  opt_value_of_id := http_request_header_t.opt_value_of_id

/-- Decidable equality of the results of the extraction. -/
instance {ε α : Type} [DecidableEq ε] [DecidableEq α] : DecidableEq (Except ε α)
  | .ok a, .ok b =>
    if h : a = b then isTrue (by rw [h]) else isFalse (fun h2 => h (Except.ok.inj h2))
  | .error a, .error b =>
    if h : a = b then isTrue (by rw [h]) else isFalse (fun h2 => h (Except.error.inj h2))
  | .ok _, .error _ => isFalse (fun h => nomatch h)
  | .error _, .ok _ => isFalse (fun h => nomatch h)

/-- The header of most test cases of `dev/test/bearer_auth/main.cpp`: a POST of `/`
with the given fields. -/
def dummy_header (fields : List http_header_field_t) : http_request_header_t where
  method := "POST"
  request_target := "/"
  fields := fields

/-- The request of a test case of `dev/test/bearer_auth/main.cpp` around a given
header: request id 1, body `Body`, connection 1, endpoint 127.0.0.1:12345. -/
def make_test_request (header : http_request_header_t) : request_t where
  request_id := 1
  header := header
  body := "Body"
  connection_id := 1
  remote_endpoint := ("127.0.0.1", 12345)

/-- The request of a test case that sets the field `Authorization` only. -/
def request_with_authorization (value : String) : request_t :=
  make_test_request (dummy_header
    [{ name := "Authorization", value := value, field_id := .authorization }])

/-- The request of the test case "No Authorization field": a default header, which
has no field. -/
def request_without_fields : request_t :=
  make_test_request { method := "GET", request_target := "", fields := [] }

/-- The request of the test case "Valid X-My-Authorization field": the field
`Authorization` and, after it, the custom field `X-My-Authorization`. -/
def request_with_custom_field : request_t :=
  make_test_request (dummy_header
    [{ name := "Authorization", value := "Bearer dXNlcjoxMjM0",
       field_id := .authorization },
     { name := "X-My-Authorization", value := "Bearer bXktdXNlcjpteS0xMjM0",
       field_id := .field_unspecified }])

end bearer_auth
end http_field_parsers
end restinio


/-! ## The base64 decoder that the header includes -/

namespace restinio.utils.base64

/-- Modelled from the spec: the value of one character of the base64 alphabet
(`restinio/utils/base64.hpp` is missing). -/
def sextet_of (c : Char) : Option Nat :=
  if c.isUpper then some (c.toNat - 65)
  else if c.isLower then some (c.toNat - 97 + 26)
  else if c.isDigit then some (c.toNat - 48 + 52)
  else if c = '+' then some 62
  else if c = '/' then some 63
  else none

/-- Modelled from the spec: the decoding of a sequence of base64 characters, four
characters for three bytes, with `=` as the padding of the last group. -/
def decode_chars : List Char → Option (List Char)
  | [] => some []
  | a :: b :: c :: d :: rest =>
    match sextet_of a, sextet_of b with
    | some x, some y =>
      if c = '=' then
        if d = '=' ∧ rest = [] then some [Char.ofNat ((x * 4 + y / 16) % 256)] else none
      else
        match sextet_of c with
        | none => none
        | some z =>
          if d = '=' then
            if rest = [] then
              some [Char.ofNat ((x * 4 + y / 16) % 256),
                    Char.ofNat ((y * 16 + z / 4) % 256)]
            else none
          else
            match sextet_of d, decode_chars rest with
            | some w, some tail =>
              some (Char.ofNat ((x * 4 + y / 16) % 256)
                :: Char.ofNat ((y * 16 + z / 4) % 256)
                :: Char.ofNat ((z * 64 + w) % 256) :: tail)
            | _, _ => none
    | _, _ => none
  | _ => none

/-- Modelled from the spec: the base64 decoder ("base64-decodes `token` into
bytes, interprets them as ... text"); `none` stands for a malformed input. -/
def decode (s : string_view_t) : Option String :=
  (decode_chars s.data).map String.mk

end restinio.utils.base64

/-! ## The extraction with its dereferences and with the state made explicit -/

namespace restinio.http_field_parsers.bearer_auth

/-- The dereference `*opt` of an `optional_t`: its value, and nothing (`none`, an
undefined result) when the optional is empty. -/
def deref_optional {α : Type} : Option α → Option α
  | some a => some a
  | none => none

/-- The dereference `*result` of an `expected_t`: its value, and nothing (`none`, an
undefined result) when it holds an error. -/
def deref_expected {ε α : Type} : Except ε α → Option α
  | .ok a => some a
  | .error _ => none

/-- The member access `ptr->value` through a pointer to a token68: nothing (`none`,
an undefined result) for a null pointer. -/
def deref_token68_pointer : Option token68_t → Option String
  | some t => some t.value
  | none => none

/-- The conversion of an `expected_t` to `bool`: whether it holds a value. -/
def has_value {ε α : Type} : Except ε α → Bool
  | .ok _ => true
  | .error _ => false

namespace impl

/-- The function `impl::perform_extraction_attempt` of `bearer_auth.hpp`, statement
by statement, with the three dereferences of the source (`*opt_field_value`,
`*field_value_parse_result`, `b64token->value`) as operations that can fail: the
result is `none` when the run reaches a dereference of an empty optional, of a
failed parse result or of a null pointer. -/
def perform_extraction_attempt_checked {ε : Type}
    (try_parse : string_view_t → Except ε authorization_value_t)
    (opt_field_value : Option string_view_t) :
    Option (Except extraction_error_t params_t) :=
  if opt_field_value.isNone then
    some (.error .no_auth_http_field)
  else
    (deref_optional opt_field_value).bind fun field_value =>
      let field_value_parse_result := try_parse field_value
      if !(has_value field_value_parse_result) then
        some (.error .illegal_http_field_value)
      else
        (deref_expected field_value_parse_result).bind fun parsed_value =>
          if "Bearer" ≠ parsed_value.auth_scheme then
            some (.error .not_bearer_auth_scheme)
          else
            let b64token := get_if_token68 parsed_value.auth_param
            if b64token.isNone then
              some (.error .invalid_bearer_auth_param)
            else
              (deref_token68_pointer b64token).bind fun value =>
                some (.ok { token := value })

end impl

/-- The collaborators as operations on the state of the program: `σ` stands for
whatever a call can reach besides its arguments (objects of static storage, streams,
caches).  Each operation receives the state, and returns its value next to the state
that it leaves. -/
structure stateful_collaborators_t (σ ε : Type) where
  try_parse : string_view_t → σ → Except ε authorization_value_t × σ
  opt_value_of_name :
    http_request_header_t → string_view_t → σ → Option string_view_t × σ
  opt_value_of_id :
    http_request_header_t → http_field_t → σ → Option string_view_t × σ

namespace impl

/-- The function `impl::perform_extraction_attempt` of `bearer_auth.hpp` as a run
over the state of the program.  The body declares no object of static storage and
assigns to nothing but its own locals, so the state moves in the call of `try_parse`
only; every `return` hands over the state that is current at that point. -/
def perform_extraction_attempt_in_state {σ ε : Type}
    (try_parse : string_view_t → σ → Except ε authorization_value_t × σ)
    (opt_field_value : Option string_view_t) (s : σ) :
    Except extraction_error_t params_t × σ :=
  match opt_field_value with
  | none => (.error .no_auth_http_field, s)
  | some field_value =>
    let field_value_parse_result := try_parse field_value s
    match field_value_parse_result.1 with
    | .error _ => (.error .illegal_http_field_value, field_value_parse_result.2)
    | .ok parsed_value =>
      if "Bearer" ≠ parsed_value.auth_scheme then
        (.error .not_bearer_auth_scheme, field_value_parse_result.2)
      else
        match get_if_token68 parsed_value.auth_param with
        | none => (.error .invalid_bearer_auth_param, field_value_parse_result.2)
        | some b64token =>
          (.ok { token := b64token.value }, field_value_parse_result.2)

end impl

/-- The overload `try_extract_params( const request_t &, string_view_t )` as a run
over the state of the program: the lookup runs first, the extraction runs in the
state that the lookup leaves. -/
def try_extract_params_in_state {σ ε : Type} (env : stateful_collaborators_t σ ε)
    (req : request_t) (auth_field_name : string_view_t) (s : σ) :
    Except extraction_error_t params_t × σ :=
  let looked_up := env.opt_value_of_name req.header auth_field_name s
  impl.perform_extraction_attempt_in_state env.try_parse looked_up.1 looked_up.2

/-- The overload `try_extract_params( const request_t &, http_field_t )` as a run
over the state of the program. -/
def try_extract_params_by_id_in_state {σ ε : Type}
    (env : stateful_collaborators_t σ ε)
    (req : request_t) (auth_field_id : http_field_t) (s : σ) :
    Except extraction_error_t params_t × σ :=
  let looked_up := env.opt_value_of_id req.header auth_field_id s
  impl.perform_extraction_attempt_in_state env.try_parse looked_up.1 looked_up.2

/-- Collaborators that are functions of their arguments, seen as operations on a
state that they neither read nor change. -/
def collaborators_t.in_state {ε : Type} (σ : Type) (env : collaborators_t ε) :
    stateful_collaborators_t σ ε where
  try_parse := fun field_value s => (env.try_parse field_value, s)
  opt_value_of_name := fun header name s => (env.opt_value_of_name header name, s)
  opt_value_of_id := fun header field_id s => (env.opt_value_of_id header field_id, s)

/-- Collaborators with a parser that is not read-only: it counts its calls in the
state and accepts a value on the first call only.  The lookups are the modelled
ones and leave the count alone. -/
def counting_collaborators : stateful_collaborators_t Nat parse_failure_t where
  try_parse := fun field_value calls =>
    (if calls = 0 then authorization_value_t.try_parse field_value
     else .error .illegal_auth_param, calls + 1)
  opt_value_of_name := fun header name calls => (header.opt_value_of name, calls)
  opt_value_of_id := fun header field_id calls =>
    (header.opt_value_of_id field_id, calls)

/-- A request that shares with `request_with_custom_field` the field
`X-My-Authorization` and nothing else: another request id, method, target, body,
connection and endpoint, and no field `Authorization`. -/
def request_with_custom_field_only : request_t where
  request_id := 2
  header :=
    { method := "GET", request_target := "/other",
      fields := [{ name := "X-My-Authorization", value := "Bearer bXktdXNlcjpteS0xMjM0",
                   field_id := .field_unspecified }] }
  body := ""
  connection_id := 7
  remote_endpoint := ("10.0.0.1", 80)

end restinio.http_field_parsers.bearer_auth

/-! ## The stages of the extraction, one lemma for each exit -/

namespace restinio.http_field_parsers.bearer_auth

namespace impl

/-- An absent field value leaves through the first exit. -/
theorem perform_extraction_attempt_absent {ε : Type}
    (try_parse : string_view_t → Except ε authorization_value_t) :
    perform_extraction_attempt try_parse none = .error .no_auth_http_field := rfl

/-- A value that the parser refuses leaves through the second exit. -/
theorem perform_extraction_attempt_unparsed {ε : Type}
    (try_parse : string_view_t → Except ε authorization_value_t)
    (field_value : string_view_t) (e : ε) (h : try_parse field_value = .error e) :
    perform_extraction_attempt try_parse (some field_value)
      = .error .illegal_http_field_value := by
  simp [perform_extraction_attempt, h]

/-- A parsed value with another scheme leaves through the third exit. -/
theorem perform_extraction_attempt_other_scheme {ε : Type}
    (try_parse : string_view_t → Except ε authorization_value_t)
    (field_value : string_view_t) (parsed_value : authorization_value_t)
    (h : try_parse field_value = .ok parsed_value)
    (hs : parsed_value.auth_scheme ≠ "Bearer") :
    perform_extraction_attempt try_parse (some field_value)
      = .error .not_bearer_auth_scheme := by
  have hs2 : ¬ ("Bearer" = parsed_value.auth_scheme) := fun hq => hs hq.symm
  simp [perform_extraction_attempt, h, hs2]

/-- A parsed Bearer value with a parameter list leaves through the fourth exit. -/
theorem perform_extraction_attempt_param_list {ε : Type}
    (try_parse : string_view_t → Except ε authorization_value_t)
    (field_value : string_view_t) (parsed_value : authorization_value_t)
    (ps : List param_t)
    (h : try_parse field_value = .ok parsed_value)
    (hs : parsed_value.auth_scheme = "Bearer")
    (hp : parsed_value.auth_param = .param_container ps) :
    perform_extraction_attempt try_parse (some field_value)
      = .error .invalid_bearer_auth_param := by
  simp [perform_extraction_attempt, h, hs, hp, get_if_token68]

/-- A parsed Bearer value with a token68 is returned as it is. -/
theorem perform_extraction_attempt_token68 {ε : Type}
    (try_parse : string_view_t → Except ε authorization_value_t)
    (field_value : string_view_t) (parsed_value : authorization_value_t)
    (t : token68_t)
    (h : try_parse field_value = .ok parsed_value)
    (hs : parsed_value.auth_scheme = "Bearer")
    (hp : parsed_value.auth_param = .token68 t) :
    perform_extraction_attempt try_parse (some field_value)
      = .ok { token := t.value } := by
  simp [perform_extraction_attempt, h, hs, hp, get_if_token68]

/-- A success comes from a present value that parses to a Bearer token68 only. -/
theorem perform_extraction_attempt_ok_inv {ε : Type}
    (try_parse : string_view_t → Except ε authorization_value_t)
    (opt_field_value : Option string_view_t) (p : params_t)
    (h : perform_extraction_attempt try_parse opt_field_value = .ok p) :
    ∃ field_value parsed_value,
      opt_field_value = some field_value ∧
      try_parse field_value = .ok parsed_value ∧
      parsed_value.auth_scheme = "Bearer" ∧
      parsed_value.auth_param = .token68 { value := p.token } := by
  cases opt_field_value with
  | none => simp [perform_extraction_attempt] at h
  | some field_value =>
    cases hparse : try_parse field_value with
    | error e => simp [perform_extraction_attempt, hparse] at h
    | ok parsed_value =>
      by_cases hs : parsed_value.auth_scheme = "Bearer"
      · cases hp : parsed_value.auth_param with
        | param_container ps =>
          rw [perform_extraction_attempt_param_list try_parse field_value parsed_value ps
            hparse hs hp] at h
          cases h
        | token68 t =>
          rw [perform_extraction_attempt_token68 try_parse field_value parsed_value t
            hparse hs hp] at h
          cases h
          exact ⟨field_value, parsed_value, rfl, hparse, hs, hp⟩
      · rw [perform_extraction_attempt_other_scheme try_parse field_value parsed_value
          hparse hs] at h
        cases h

/-- With a parser that is a function of its argument, the run over the state is the
extraction itself, in an untouched state. -/
theorem perform_extraction_attempt_in_state_of_function {σ ε : Type}
    (try_parse : string_view_t → Except ε authorization_value_t)
    (opt_field_value : Option string_view_t) (s : σ) :
    perform_extraction_attempt_in_state (fun v t => (try_parse v, t)) opt_field_value s
      = (perform_extraction_attempt try_parse opt_field_value, s) := by
  cases opt_field_value with
  | none => rfl
  | some field_value =>
    simp only [perform_extraction_attempt_in_state, perform_extraction_attempt]
    cases try_parse field_value with
    | error e => rfl
    | ok parsed_value =>
      by_cases hb : "Bearer" = parsed_value.auth_scheme
      · cases hp : get_if_token68 parsed_value.auth_param with
        | none => simp [hb, hp]
        | some t => simp [hb, hp]
      · simp [hb]

end impl

/-- The two embeddings of the overloads agree: with collaborators that are functions
of their arguments, a run over the state returns what `try_extract_params` returns
and leaves the state untouched. -/
theorem try_extract_params_in_state_of_functions {σ ε : Type}
    (env : collaborators_t ε) (req : request_t)
    (auth_field_name : string_view_t) (auth_field_id : http_field_t) (s : σ) :
    try_extract_params_in_state (env.in_state σ) req auth_field_name s
      = (try_extract_params env req auth_field_name, s) ∧
    try_extract_params_by_id_in_state (env.in_state σ) req auth_field_id s
      = (try_extract_params_by_id env req auth_field_id, s) :=
  ⟨impl.perform_extraction_attempt_in_state_of_function env.try_parse _ s,
   impl.perform_extraction_attempt_in_state_of_function env.try_parse _ s⟩

/-- The condition on the parser cannot be dropped: with a parser that counts its
calls and accepts the first one only, the first call on the test request succeeds
and the second call, on the same request, reports `illegal_http_field_value`. -/
theorem repeated_call_differs_when_the_parser_counts :
    try_extract_params_in_state counting_collaborators
      (request_with_authorization "Bearer dXNlcjoxMjM0") "Authorization" 0
      = (.ok { token := "dXNlcjoxMjM0" }, 1) ∧
    try_extract_params_in_state counting_collaborators
      (request_with_authorization "Bearer dXNlcjoxMjM0") "Authorization" 1
      = (.error .illegal_http_field_value, 2) := by
  decide

end restinio.http_field_parsers.bearer_auth

/-! ## The contract of the extraction -/

namespace restinio.http_field_parsers.bearer_auth

/-- C1: the extraction succeeds exactly on a present field value that the generic
parser accepts with the scheme `Bearer` and a token68 parameter, and the token of
the result is that token68 value, unchanged.  This holds for
`impl::perform_extraction_attempt` and so for both overloads of
`try_extract_params`, whatever the parser and the lookups are. -/
theorem extraction_succeeds_exactly_on_bearer_token68 {ε : Type}
    (env : collaborators_t ε) (req : request_t)
    (auth_field_name : string_view_t) (auth_field_id : http_field_t)
    (opt_field_value : Option string_view_t) (p : params_t) :
    (impl.perform_extraction_attempt env.try_parse opt_field_value = .ok p ↔
      ∃ field_value parsed_value,
        opt_field_value = some field_value ∧
        env.try_parse field_value = .ok parsed_value ∧
        parsed_value.auth_scheme = "Bearer" ∧
        parsed_value.auth_param = .token68 { value := p.token }) ∧
    (try_extract_params env req auth_field_name = .ok p ↔
      ∃ field_value parsed_value,
        env.opt_value_of_name req.header auth_field_name = some field_value ∧
        env.try_parse field_value = .ok parsed_value ∧
        parsed_value.auth_scheme = "Bearer" ∧
        parsed_value.auth_param = .token68 { value := p.token }) ∧
    (try_extract_params_by_id env req auth_field_id = .ok p ↔
      ∃ field_value parsed_value,
        env.opt_value_of_id req.header auth_field_id = some field_value ∧
        env.try_parse field_value = .ok parsed_value ∧
        parsed_value.auth_scheme = "Bearer" ∧
        parsed_value.auth_param = .token68 { value := p.token }) := by
  have key : ∀ o : Option string_view_t,
      impl.perform_extraction_attempt env.try_parse o = .ok p ↔
      ∃ field_value parsed_value,
        o = some field_value ∧
        env.try_parse field_value = .ok parsed_value ∧
        parsed_value.auth_scheme = "Bearer" ∧
        parsed_value.auth_param = .token68 { value := p.token } := by
    intro o
    constructor
    · exact impl.perform_extraction_attempt_ok_inv env.try_parse o p
    · rintro ⟨field_value, parsed_value, ho, hparse, hs, hp⟩
      rw [ho, impl.perform_extraction_attempt_token68 env.try_parse field_value
        parsed_value { value := p.token } hparse hs hp]
  exact ⟨key _, key _, key _⟩

/-- C2: when the lookup of the requested field returns no value, both overloads of
`try_extract_params` return `no_auth_http_field`. -/
theorem try_extract_params_no_auth_http_field {ε : Type}
    (env : collaborators_t ε) (req : request_t)
    (auth_field_name : string_view_t) (auth_field_id : http_field_t) :
    (env.opt_value_of_name req.header auth_field_name = none →
      try_extract_params env req auth_field_name = .error .no_auth_http_field) ∧
    (env.opt_value_of_id req.header auth_field_id = none →
      try_extract_params_by_id env req auth_field_id = .error .no_auth_http_field) := by
  constructor
  · intro h
    rw [try_extract_params, h, impl.perform_extraction_attempt_absent]
  · intro h
    rw [try_extract_params_by_id, h, impl.perform_extraction_attempt_absent]

/-- The test case "No Authorization field", and the same lookup by name. -/
theorem try_extract_params_no_auth_http_field_witness :
    try_extract_params modelled_collaborators request_without_fields "Authorization"
      = .error .no_auth_http_field ∧
    try_extract_params_by_id modelled_collaborators request_without_fields .authorization
      = .error .no_auth_http_field :=
  ⟨(try_extract_params_no_auth_http_field modelled_collaborators request_without_fields
      "Authorization" .authorization).1 (by decide),
   (try_extract_params_no_auth_http_field modelled_collaborators request_without_fields
      "Authorization" .authorization).2 (by decide)⟩

/-- C3: when the field is present and the generic parser fails on its value, both
overloads of `try_extract_params` return `illegal_http_field_value`, whatever the
failure `e` of the parser is. -/
theorem try_extract_params_illegal_http_field_value {ε : Type}
    (env : collaborators_t ε) (req : request_t)
    (auth_field_name : string_view_t) (auth_field_id : http_field_t)
    (field_value : string_view_t) (e : ε)
    (h : env.try_parse field_value = .error e) :
    (env.opt_value_of_name req.header auth_field_name = some field_value →
      try_extract_params env req auth_field_name = .error .illegal_http_field_value) ∧
    (env.opt_value_of_id req.header auth_field_id = some field_value →
      try_extract_params_by_id env req auth_field_id
        = .error .illegal_http_field_value) := by
  constructor
  · intro hv
    rw [try_extract_params, hv]
    exact impl.perform_extraction_attempt_unparsed env.try_parse field_value e h
  · intro hv
    rw [try_extract_params_by_id, hv]
    exact impl.perform_extraction_attempt_unparsed env.try_parse field_value e h

/-- The test case "Empty Authorization field": the empty value is refused by the
parser and the extraction reports `illegal_http_field_value`. -/
theorem try_extract_params_illegal_http_field_value_witness :
    modelled_collaborators.try_parse "" = .error .no_auth_scheme ∧
    try_extract_params modelled_collaborators (request_with_authorization "")
      "Authorization" = .error .illegal_http_field_value ∧
    try_extract_params_by_id modelled_collaborators (request_with_authorization "")
      .authorization = .error .illegal_http_field_value :=
  ⟨by decide,
   (try_extract_params_illegal_http_field_value modelled_collaborators
      (request_with_authorization "") "Authorization" .authorization ""
      .no_auth_scheme (by decide)).1 (by decide),
   (try_extract_params_illegal_http_field_value modelled_collaborators
      (request_with_authorization "") "Authorization" .authorization ""
      .no_auth_scheme (by decide)).2 (by decide)⟩

/-- C4: when the field is present and its value parses with a scheme other than
`Bearer`, both overloads of `try_extract_params` return `not_bearer_auth_scheme`,
for a token68 parameter and for a parameter list alike: the parameter of
`parsed_value` is not constrained, and the result is not
`invalid_bearer_auth_param`. -/
theorem try_extract_params_not_bearer_auth_scheme {ε : Type}
    (env : collaborators_t ε) (req : request_t)
    (auth_field_name : string_view_t) (auth_field_id : http_field_t)
    (field_value : string_view_t) (parsed_value : authorization_value_t)
    (h : env.try_parse field_value = .ok parsed_value)
    (hs : parsed_value.auth_scheme ≠ "Bearer") :
    (env.opt_value_of_name req.header auth_field_name = some field_value →
      try_extract_params env req auth_field_name = .error .not_bearer_auth_scheme ∧
      try_extract_params env req auth_field_name
        ≠ .error .invalid_bearer_auth_param) ∧
    (env.opt_value_of_id req.header auth_field_id = some field_value →
      try_extract_params_by_id env req auth_field_id
        = .error .not_bearer_auth_scheme ∧
      try_extract_params_by_id env req auth_field_id
        ≠ .error .invalid_bearer_auth_param) := by
  have key := impl.perform_extraction_attempt_other_scheme env.try_parse field_value
    parsed_value h hs
  constructor
  · intro hv
    rw [try_extract_params, hv, key]
    exact ⟨rfl, by decide⟩
  · intro hv
    rw [try_extract_params_by_id, hv, key]
    exact ⟨rfl, by decide⟩

/-- The test case "Different encoding scheme": the value parses to the scheme
`MyScheme` with a list of two parameters and the extraction reports
`not_bearer_auth_scheme`. -/
theorem try_extract_params_not_bearer_auth_scheme_witness :
    modelled_collaborators.try_parse "MyScheme param=value, anotherparam=anothervalue"
      = .ok { auth_scheme := "MyScheme",
              auth_param := .param_container
                [{ name := "param", value := "value" },
                 { name := "anotherparam", value := "anothervalue" }] } ∧
    try_extract_params_by_id modelled_collaborators
      (request_with_authorization "MyScheme param=value, anotherparam=anothervalue")
      .authorization = .error .not_bearer_auth_scheme ∧
    try_extract_params_by_id modelled_collaborators
      (request_with_authorization "MyScheme param=value, anotherparam=anothervalue")
      .authorization ≠ .error .invalid_bearer_auth_param :=
  ⟨by decide,
   (try_extract_params_not_bearer_auth_scheme modelled_collaborators
      (request_with_authorization "MyScheme param=value, anotherparam=anothervalue")
      "Authorization" .authorization
      "MyScheme param=value, anotherparam=anothervalue"
      { auth_scheme := "MyScheme",
        auth_param := .param_container
          [{ name := "param", value := "value" },
           { name := "anotherparam", value := "anothervalue" }] }
      (by decide) (by decide)).2 (by decide)⟩

/-- C5: when the field is present and its value parses with the scheme `Bearer` and
a list of `name=value` parameters, both overloads of `try_extract_params` return
`invalid_bearer_auth_param`. -/
theorem try_extract_params_invalid_bearer_auth_param {ε : Type}
    (env : collaborators_t ε) (req : request_t)
    (auth_field_name : string_view_t) (auth_field_id : http_field_t)
    (field_value : string_view_t) (parsed_value : authorization_value_t)
    (ps : List param_t)
    (h : env.try_parse field_value = .ok parsed_value)
    (hs : parsed_value.auth_scheme = "Bearer")
    (hp : parsed_value.auth_param = .param_container ps) :
    (env.opt_value_of_name req.header auth_field_name = some field_value →
      try_extract_params env req auth_field_name
        = .error .invalid_bearer_auth_param) ∧
    (env.opt_value_of_id req.header auth_field_id = some field_value →
      try_extract_params_by_id env req auth_field_id
        = .error .invalid_bearer_auth_param) := by
  have key := impl.perform_extraction_attempt_param_list env.try_parse field_value
    parsed_value ps h hs hp
  constructor
  · intro hv
    rw [try_extract_params, hv, key]
  · intro hv
    rw [try_extract_params_by_id, hv, key]

/-- The test case "Wrong Bearer Authentification params". -/
theorem try_extract_params_invalid_bearer_auth_param_witness :
    modelled_collaborators.try_parse "Bearer param=value, anotherparam=anothervalue"
      = .ok { auth_scheme := "Bearer",
              auth_param := .param_container
                [{ name := "param", value := "value" },
                 { name := "anotherparam", value := "anothervalue" }] } ∧
    try_extract_params_by_id modelled_collaborators
      (request_with_authorization "Bearer param=value, anotherparam=anothervalue")
      .authorization = .error .invalid_bearer_auth_param :=
  ⟨by decide,
   (try_extract_params_invalid_bearer_auth_param modelled_collaborators
      (request_with_authorization "Bearer param=value, anotherparam=anothervalue")
      "Authorization" .authorization
      "Bearer param=value, anotherparam=anothervalue"
      { auth_scheme := "Bearer",
        auth_param := .param_container
          [{ name := "param", value := "value" },
           { name := "anotherparam", value := "anothervalue" }] }
      [{ name := "param", value := "value" },
       { name := "anotherparam", value := "anothervalue" }]
      (by decide) (by decide) (by decide)).2 (by decide)⟩

/-- C6: the scheme gate is an exact, case-sensitive comparison with `Bearer`: for a
value that parses, the extraction returns `not_bearer_auth_scheme` exactly when the
parsed scheme is not the string `Bearer`; in particular it does so for the schemes
`bearer`, `BEARER`, `Bearer2` and `Bear`. -/
theorem scheme_gate_is_exact {ε : Type}
    (try_parse : string_view_t → Except ε authorization_value_t)
    (field_value : string_view_t) (parsed_value : authorization_value_t)
    (h : try_parse field_value = .ok parsed_value) :
    (impl.perform_extraction_attempt try_parse (some field_value)
        = .error .not_bearer_auth_scheme ↔ parsed_value.auth_scheme ≠ "Bearer") ∧
    (parsed_value.auth_scheme ∈ ["bearer", "BEARER", "Bearer2", "Bear"] →
      impl.perform_extraction_attempt try_parse (some field_value)
        = .error .not_bearer_auth_scheme) := by
  have other := impl.perform_extraction_attempt_other_scheme try_parse field_value
    parsed_value h
  refine ⟨⟨?_, other⟩, ?_⟩
  · intro hres hs
    cases hp : parsed_value.auth_param with
    | param_container ps =>
      rw [impl.perform_extraction_attempt_param_list try_parse field_value parsed_value
        ps h hs hp] at hres
      cases hres
    | token68 t =>
      rw [impl.perform_extraction_attempt_token68 try_parse field_value parsed_value
        t h hs hp] at hres
      cases hres
  · intro hmem
    apply other
    intro hs
    rw [hs] at hmem
    revert hmem
    decide

/-- The gate on five header values that differ in the scheme only: the four
variants are refused, `Bearer` itself passes. -/
theorem scheme_gate_is_exact_witness :
    impl.perform_extraction_attempt authorization_value_t.try_parse
      (some "bearer dXNlcjoxMjM0") = .error .not_bearer_auth_scheme ∧
    impl.perform_extraction_attempt authorization_value_t.try_parse
      (some "BEARER dXNlcjoxMjM0") = .error .not_bearer_auth_scheme ∧
    impl.perform_extraction_attempt authorization_value_t.try_parse
      (some "Bearer2 dXNlcjoxMjM0") = .error .not_bearer_auth_scheme ∧
    impl.perform_extraction_attempt authorization_value_t.try_parse
      (some "Bear dXNlcjoxMjM0") = .error .not_bearer_auth_scheme ∧
    ¬ (impl.perform_extraction_attempt authorization_value_t.try_parse
      (some "Bearer dXNlcjoxMjM0") = .error .not_bearer_auth_scheme) :=
  ⟨(scheme_gate_is_exact authorization_value_t.try_parse "bearer dXNlcjoxMjM0"
      { auth_scheme := "bearer", auth_param := .token68 { value := "dXNlcjoxMjM0" } }
      (by decide)).2 (by decide),
   (scheme_gate_is_exact authorization_value_t.try_parse "BEARER dXNlcjoxMjM0"
      { auth_scheme := "BEARER", auth_param := .token68 { value := "dXNlcjoxMjM0" } }
      (by decide)).2 (by decide),
   (scheme_gate_is_exact authorization_value_t.try_parse "Bearer2 dXNlcjoxMjM0"
      { auth_scheme := "Bearer2", auth_param := .token68 { value := "dXNlcjoxMjM0" } }
      (by decide)).2 (by decide),
   (scheme_gate_is_exact authorization_value_t.try_parse "Bear dXNlcjoxMjM0"
      { auth_scheme := "Bear", auth_param := .token68 { value := "dXNlcjoxMjM0" } }
      (by decide)).2 (by decide),
   fun hres =>
    (scheme_gate_is_exact authorization_value_t.try_parse "Bearer dXNlcjoxMjM0"
      { auth_scheme := "Bearer", auth_param := .token68 { value := "dXNlcjoxMjM0" } }
      (by decide)).1.mp hres rfl⟩

/-- C7 (the code departs from the claim): a parsed Bearer value whose token68 is the
empty string is not refused with `empty_token`; the extraction succeeds and returns
the empty token.  The enumerator `empty_token` is declared and never returned. -/
theorem empty_token68_is_not_refused {ε : Type}
    (try_parse : string_view_t → Except ε authorization_value_t)
    (field_value : string_view_t)
    (h : try_parse field_value
      = .ok { auth_scheme := "Bearer", auth_param := .token68 { value := "" } }) :
    impl.perform_extraction_attempt try_parse (some field_value)
      = .ok { token := "" } ∧
    impl.perform_extraction_attempt try_parse (some field_value)
      ≠ .error .empty_token := by
  have key := impl.perform_extraction_attempt_token68 try_parse field_value
    { auth_scheme := "Bearer", auth_param := .token68 { value := "" } }
    { value := "" } h rfl rfl
  rw [key]
  exact ⟨rfl, by decide⟩

/-- The header value `Bearer ` of the spec, with its empty token68. -/
theorem empty_token68_is_not_refused_witness :
    authorization_value_t.try_parse "Bearer "
      = .ok { auth_scheme := "Bearer", auth_param := .token68 { value := "" } } ∧
    impl.perform_extraction_attempt authorization_value_t.try_parse (some "Bearer ")
      = .ok { token := "" } ∧
    impl.perform_extraction_attempt authorization_value_t.try_parse (some "Bearer ")
      ≠ .error .empty_token :=
  ⟨by decide,
   empty_token68_is_not_refused authorization_value_t.try_parse "Bearer " (by decide)⟩

/-- C8 (the code departs from the claim): `try_extract_params` can succeed with an
empty token.  When the requested field is present and parses to the scheme `Bearer`
with an empty token68, both overloads succeed and the token of the result is the
empty string, against the note "Can't be empty" of `params_t::token`. -/
theorem try_extract_params_returns_empty_token {ε : Type}
    (env : collaborators_t ε) (req : request_t)
    (auth_field_name : string_view_t) (auth_field_id : http_field_t)
    (field_value : string_view_t)
    (h : env.try_parse field_value
      = .ok { auth_scheme := "Bearer", auth_param := .token68 { value := "" } }) :
    (env.opt_value_of_name req.header auth_field_name = some field_value →
      ∃ p, try_extract_params env req auth_field_name = .ok p ∧ p.token = "") ∧
    (env.opt_value_of_id req.header auth_field_id = some field_value →
      ∃ p, try_extract_params_by_id env req auth_field_id = .ok p ∧ p.token = "") := by
  have key := impl.perform_extraction_attempt_token68 env.try_parse field_value
    { auth_scheme := "Bearer", auth_param := .token68 { value := "" } }
    { value := "" } h rfl rfl
  constructor
  · intro hv
    exact ⟨{ token := "" }, by rw [try_extract_params, hv, key], rfl⟩
  · intro hv
    exact ⟨{ token := "" }, by rw [try_extract_params_by_id, hv, key], rfl⟩

/-- A request whose field `Authorization` is `Bearer `: the extraction succeeds
with an empty token. -/
theorem try_extract_params_returns_empty_token_witness :
    ∃ p, try_extract_params_by_id modelled_collaborators
      (request_with_authorization "Bearer ") .authorization = .ok p ∧ p.token = "" :=
  (try_extract_params_returns_empty_token modelled_collaborators
    (request_with_authorization "Bearer ") "Authorization" .authorization "Bearer "
    (by decide)).2 (by decide)

/-- C9 (the code departs from the claim): on the two valid requests of the test
suite, whose token68 decode to `user:1234` and to `my-user:my-1234`, the extraction
succeeds, and its result is the token68 itself, not decoded and not split;
`params_t` has the single member `token`, which equals neither the id nor the
secret. -/
theorem valid_pair_is_returned_undecoded :
    utils.base64.decode "dXNlcjoxMjM0" = some "user:1234" ∧
    try_extract_params_by_id modelled_collaborators
      (request_with_authorization "Bearer dXNlcjoxMjM0") .authorization
      = .ok { token := "dXNlcjoxMjM0" } ∧
    utils.base64.decode "bXktdXNlcjpteS0xMjM0" = some "my-user:my-1234" ∧
    try_extract_params modelled_collaborators request_with_custom_field
      "x-my-authorization" = .ok { token := "bXktdXNlcjpteS0xMjM0" } ∧
    "dXNlcjoxMjM0" ≠ "user" ∧ "dXNlcjoxMjM0" ≠ "1234" ∧
    "bXktdXNlcjpteS0xMjM0" ≠ "my-user" ∧ "bXktdXNlcjpteS0xMjM0" ≠ "my-1234" := by
  decide

/-- C10 (the code departs from the claim): on the request of the test case "No
semicolon in id:secret pair", whose token68 decodes to `userpassword`, a text
without `:`, the extraction does not fail: it succeeds with the token68 as the
token, so its result is no error at all. -/
theorem pair_without_colon_is_accepted :
    utils.base64.decode "dXNlcnBhc3N3b3Jk" = some "userpassword" ∧
    ':' ∉ "userpassword".data ∧
    try_extract_params_by_id modelled_collaborators
      (request_with_authorization "Bearer dXNlcnBhc3N3b3Jk") .authorization
      = .ok { token := "dXNlcnBhc3N3b3Jk" } ∧
    ∀ e : extraction_error_t,
      try_extract_params_by_id modelled_collaborators
        (request_with_authorization "Bearer dXNlcnBhc3N3b3Jk") .authorization
        ≠ .error e := by
  refine ⟨by decide, by decide, by decide, ?_⟩
  intro e
  cases e <;> decide

/-- C11 (the code departs from the claim): on the request of the test case "Empty id
in id:secret pair", whose token68 decodes to `:password`, a text with nothing before
its first `:`, the extraction does not fail: it succeeds with the token68 as the
token, so its result is no error at all. -/
theorem pair_with_empty_id_is_accepted :
    utils.base64.decode "OnBhc3N3b3Jk" = some ":password" ∧
    ":password".data.takeWhile (fun c => c ≠ ':') = [] ∧
    try_extract_params_by_id modelled_collaborators
      (request_with_authorization "Bearer OnBhc3N3b3Jk") .authorization
      = .ok { token := "OnBhc3N3b3Jk" } ∧
    ∀ e : extraction_error_t,
      try_extract_params_by_id modelled_collaborators
        (request_with_authorization "Bearer OnBhc3N3b3Jk") .authorization
        ≠ .error e := by
  refine ⟨by decide, by decide, by decide, ?_⟩
  intro e
  cases e <;> decide

/-- C12 (the code departs from the claim): on the request of the test case "Empty
secret in id:secret pair", whose token68 decodes to `user:`, a text with `user`
before its first `:` and nothing after it, the extraction does not fail: it succeeds
with the token68 as the token, so its result is no error at all. -/
theorem pair_with_empty_secret_is_accepted :
    utils.base64.decode "dXNlcjo=" = some "user:" ∧
    "user:".data.takeWhile (fun c => c ≠ ':') = "user".data ∧
    "user:".data.dropWhile (fun c => c ≠ ':') = [':'] ∧
    try_extract_params_by_id modelled_collaborators
      (request_with_authorization "Bearer dXNlcjo=") .authorization
      = .ok { token := "dXNlcjo=" } ∧
    ∀ e : extraction_error_t,
      try_extract_params_by_id modelled_collaborators
        (request_with_authorization "Bearer dXNlcjo=") .authorization
        ≠ .error e := by
  refine ⟨by decide, by decide, by decide, by decide, ?_⟩
  intro e
  cases e <;> decide

/-- C13: the two overloads of `try_extract_params` are one pipeline: each is
`impl::perform_extraction_attempt` applied to the value that its lookup returns, so
whenever the lookup by name and the lookup by identifier return the same optional
value, the two overloads return the same result. -/
theorem try_extract_params_overloads_agree {ε : Type}
    (env : collaborators_t ε) (req : request_t)
    (auth_field_name : string_view_t) (auth_field_id : http_field_t)
    (h : env.opt_value_of_name req.header auth_field_name
      = env.opt_value_of_id req.header auth_field_id) :
    try_extract_params env req auth_field_name
      = impl.perform_extraction_attempt env.try_parse
          (env.opt_value_of_name req.header auth_field_name) ∧
    try_extract_params_by_id env req auth_field_id
      = impl.perform_extraction_attempt env.try_parse
          (env.opt_value_of_id req.header auth_field_id) ∧
    try_extract_params env req auth_field_name
      = try_extract_params_by_id env req auth_field_id := by
  refine ⟨rfl, rfl, ?_⟩
  rw [try_extract_params, try_extract_params_by_id, h]

/-- The field `Authorization` of a test request, looked up by its name and by its
identifier: the same value, and the same result of the two overloads. -/
theorem try_extract_params_overloads_agree_witness :
    modelled_collaborators.opt_value_of_name
      (request_with_authorization "Bearer dXNlcjoxMjM0").header "Authorization"
      = modelled_collaborators.opt_value_of_id
          (request_with_authorization "Bearer dXNlcjoxMjM0").header .authorization ∧
    try_extract_params modelled_collaborators
      (request_with_authorization "Bearer dXNlcjoxMjM0") "Authorization"
      = try_extract_params_by_id modelled_collaborators
          (request_with_authorization "Bearer dXNlcjoxMjM0") .authorization :=
  ⟨by decide,
   (try_extract_params_overloads_agree modelled_collaborators
      (request_with_authorization "Bearer dXNlcjoxMjM0") "Authorization"
      .authorization (by decide)).2.2⟩

/-- C14: the extraction is total.  For every parser and every optional field value,
the run of `impl::perform_extraction_attempt` with its dereferences made explicit
never reaches a dereference of an empty optional, of a failed parse result or of a
null pointer: it returns the result of the extraction, and that result is either a
`params_t` or exactly one `extraction_error_t`, never both. -/
theorem perform_extraction_attempt_total {ε : Type}
    (try_parse : string_view_t → Except ε authorization_value_t)
    (opt_field_value : Option string_view_t) :
    impl.perform_extraction_attempt_checked try_parse opt_field_value
      = some (impl.perform_extraction_attempt try_parse opt_field_value) ∧
    ((∃ p, impl.perform_extraction_attempt try_parse opt_field_value = .ok p) ∨
      (∃! e, impl.perform_extraction_attempt try_parse opt_field_value = .error e)) ∧
    ¬ ((∃ p, impl.perform_extraction_attempt try_parse opt_field_value = .ok p) ∧
      (∃ e, impl.perform_extraction_attempt try_parse opt_field_value = .error e)) := by
  refine ⟨?_, ?_, ?_⟩
  · cases opt_field_value with
    | none => rfl
    | some field_value =>
      cases hparse : try_parse field_value with
      | error e =>
        simp [impl.perform_extraction_attempt_checked, impl.perform_extraction_attempt,
          deref_optional, has_value, hparse]
      | ok parsed_value =>
        by_cases hs : "Bearer" = parsed_value.auth_scheme
        · cases hp : parsed_value.auth_param with
          | token68 t =>
            simp [impl.perform_extraction_attempt_checked,
              impl.perform_extraction_attempt, deref_optional, deref_expected,
              deref_token68_pointer, has_value, get_if_token68, hparse, hs, hp]
          | param_container ps =>
            simp [impl.perform_extraction_attempt_checked,
              impl.perform_extraction_attempt, deref_optional, deref_expected,
              has_value, get_if_token68, hparse, hs, hp]
        · simp [impl.perform_extraction_attempt_checked,
            impl.perform_extraction_attempt, deref_optional, deref_expected,
            has_value, hparse, hs]
  · cases hres : impl.perform_extraction_attempt try_parse opt_field_value with
    | ok p => exact Or.inl ⟨p, rfl⟩
    | error e =>
      refine Or.inr ⟨e, rfl, ?_⟩
      intro e2 he2
      cases he2
      rfl
  · rintro ⟨⟨p, hp⟩, ⟨e, he⟩⟩
    rw [hp] at he
    cases he

/-- C16: the error of `impl::perform_extraction_attempt` names the first stage that
fails, and nothing else: `no_auth_http_field` exactly for an absent value,
`illegal_http_field_value` exactly for a present value that the parser refuses,
`not_bearer_auth_scheme` exactly for a parsed value whose scheme is not `Bearer`,
`invalid_bearer_auth_param` exactly for a parsed Bearer value whose parameter is not
a token68; and `empty_token` is returned for no input. -/
theorem perform_extraction_attempt_error_is_first_failing_stage {ε : Type}
    (try_parse : string_view_t → Except ε authorization_value_t)
    (opt_field_value : Option string_view_t) :
    (impl.perform_extraction_attempt try_parse opt_field_value
        = .error .no_auth_http_field ↔ opt_field_value = none) ∧
    (impl.perform_extraction_attempt try_parse opt_field_value
        = .error .illegal_http_field_value ↔
      ∃ field_value e,
        opt_field_value = some field_value ∧ try_parse field_value = .error e) ∧
    (impl.perform_extraction_attempt try_parse opt_field_value
        = .error .not_bearer_auth_scheme ↔
      ∃ field_value parsed_value,
        opt_field_value = some field_value ∧
        try_parse field_value = .ok parsed_value ∧
        parsed_value.auth_scheme ≠ "Bearer") ∧
    (impl.perform_extraction_attempt try_parse opt_field_value
        = .error .invalid_bearer_auth_param ↔
      ∃ field_value parsed_value,
        opt_field_value = some field_value ∧
        try_parse field_value = .ok parsed_value ∧
        parsed_value.auth_scheme = "Bearer" ∧
        ∀ t, parsed_value.auth_param ≠ .token68 t) ∧
    impl.perform_extraction_attempt try_parse opt_field_value
      ≠ .error .empty_token := by
  cases opt_field_value with
  | none =>
    rw [impl.perform_extraction_attempt_absent]
    simp
  | some field_value =>
    cases hparse : try_parse field_value with
    | error e =>
      rw [impl.perform_extraction_attempt_unparsed try_parse field_value e hparse]
      simp [hparse]
    | ok parsed_value =>
      by_cases hs : parsed_value.auth_scheme = "Bearer"
      · cases hp : parsed_value.auth_param with
        | param_container ps =>
          rw [impl.perform_extraction_attempt_param_list try_parse field_value
            parsed_value ps hparse hs hp]
          simp [hparse, hs, hp]
        | token68 t =>
          rw [impl.perform_extraction_attempt_token68 try_parse field_value
            parsed_value t hparse hs hp]
          simp [hparse, hs, hp]
      · rw [impl.perform_extraction_attempt_other_scheme try_parse field_value
          parsed_value hparse hs]
        simp [hparse, hs]

/-- C17: the result of `try_extract_params` depends on the request through the value
that the lookup returns for the requested field only: two requests for which that
lookup returns the same optional value get the same result, whatever their other
fields, methods, targets and bodies are. -/
theorem try_extract_params_depends_on_field_value_only {ε : Type}
    (env : collaborators_t ε) (req1 req2 : request_t)
    (auth_field_name : string_view_t) (auth_field_id : http_field_t) :
    (env.opt_value_of_name req1.header auth_field_name
        = env.opt_value_of_name req2.header auth_field_name →
      try_extract_params env req1 auth_field_name
        = try_extract_params env req2 auth_field_name) ∧
    (env.opt_value_of_id req1.header auth_field_id
        = env.opt_value_of_id req2.header auth_field_id →
      try_extract_params_by_id env req1 auth_field_id
        = try_extract_params_by_id env req2 auth_field_id) := by
  constructor
  · intro h
    rw [try_extract_params, try_extract_params, h]
  · intro h
    rw [try_extract_params_by_id, try_extract_params_by_id, h]

/-- The request of the test case "Valid X-My-Authorization field", which also holds
a valid field `Authorization`, and a request that holds the custom field alone under
another method, target and body: the requests differ, the lookup of
`x-my-authorization` does not, and neither does the result.  By identifier, the same
for the field `Authorization` of two test requests. -/
theorem try_extract_params_depends_on_field_value_only_witness :
    request_with_custom_field ≠ request_with_custom_field_only ∧
    try_extract_params modelled_collaborators request_with_custom_field
      "x-my-authorization"
      = try_extract_params modelled_collaborators request_with_custom_field_only
          "x-my-authorization" ∧
    try_extract_params_by_id modelled_collaborators request_with_custom_field
      .authorization
      = try_extract_params_by_id modelled_collaborators
          (request_with_authorization "Bearer dXNlcjoxMjM0") .authorization :=
  ⟨by decide,
   (try_extract_params_depends_on_field_value_only modelled_collaborators
      request_with_custom_field request_with_custom_field_only
      "x-my-authorization" .authorization).1 (by decide),
   (try_extract_params_depends_on_field_value_only modelled_collaborators
      request_with_custom_field (request_with_authorization "Bearer dXNlcjoxMjM0")
      "x-my-authorization" .authorization).2 (by decide)⟩

end restinio.http_field_parsers.bearer_auth
